import Mathlib

/-!
Verification of the page-accumulation pipeline of `src/pdf_bot.py`.

The source is a single Python file.  Its core is embedded shallowly:

* a rendered page (PIL image) is a pixel grid `Image`;
* `extract_top_left_quadrant` (lines 99-134) crops each page to
  `(0, 0, width // 2, height // 2)` and writes `quadrant_{ts}_{i}.png`
  files to the temp dir;
* the global list `all_processed_pages` (line 42) plus the set of files
  in `TEMP_DIR` form the `BotState`;
* `handle_pdf`, `send_combined_pdf`, `clear_pages` and the cleanup part
  of `keep_alive_worker` are state transformers on `BotState`.

External effects (poppler rendering, `PIL.Image.save`, loading an
artifact back from disk, the byte size of the composed PDF) are passed
in as explicit oracle parameters, so every failure path of the Python
code corresponds to an oracle outcome.
-/

namespace PdfBot

/-- A raster image: width and height in pixels and the pixel grid as a
list of rows (each pixel an abstract `Nat` value).  Models a PIL image. -/
structure Image where
  width : Nat
  height : Nat
  pixels : List (List Nat)
deriving DecidableEq, Repr

/-- Shape well-formedness of a PIL image: there are `height` rows of
`width` pixels each. -/
def Image.wf (img : Image) : Prop :=
  img.pixels.length = img.height ∧ ∀ r ∈ img.pixels, r.length = img.width

/-- The crop performed on every page in `extract_top_left_quadrant`
(lines 120-127): `quadrant_width = width // 2`,
`quadrant_height = height // 2`, `img.crop((0, 0, qw, qh))`.
PIL's `crop` with box `(0, 0, qw, qh)` keeps the first `qh` rows and the
first `qw` columns. -/
def extractQuadrant (img : Image) : Image :=
  { width := img.width / 2
    height := img.height / 2
    pixels := (img.pixels.take (img.height / 2)).map (fun r => r.take (img.width / 2)) }

/-- Reading an index below the truncation point of `List.take` sees the
original element (with any default). -/
theorem getD_take {α : Type} (d : α) (l : List α) :
    ∀ (n x : ℕ), x < n → (l.take n).getD x d = l.getD x d := by
  induction l with
  | nil => intro n x _; simp
  | cons a t ih =>
    intro n x h
    cases n with
    | zero => exact absurd h (Nat.not_lt_zero x)
    | succ n =>
      cases x with
      | zero => simp
      | succ x => simpa using ih n x (Nat.lt_of_succ_lt_succ h)

/-- Row lookup commutes with per-row truncation, because the default row
`[]` is itself a fixed point of `List.take`. -/
theorem getD_map_take (l : List (List Nat)) (qw : Nat) :
    ∀ y : ℕ, (l.map (fun r => r.take qw)).getD y [] = (l.getD y []).take qw := by
  induction l with
  | nil => intro y; simp
  | cons a t ih =>
    intro y
    cases y with
    | zero => simp
    | succ y => simpa using ih y

/-- C1: the quadrant extraction crops exactly `(0, 0, W // 2, H // 2)` with
integer floor division: the artifact has size `(W // 2, H // 2)`, is again a
well-formed image, every pixel inside that rectangle is taken unchanged from
the page, and extraction is deterministic (equal pages give equal artifacts). -/
theorem C1_quadrant_crop (img : Image) :
    (extractQuadrant img).width = img.width / 2 ∧
    (extractQuadrant img).height = img.height / 2 ∧
    (img.wf → (extractQuadrant img).wf) ∧
    (∀ x y, x < img.width / 2 → y < img.height / 2 →
      ((extractQuadrant img).pixels.getD y []).getD x 0
        = (img.pixels.getD y []).getD x 0) ∧
    (∀ img2 : Image, img = img2 → extractQuadrant img = extractQuadrant img2) := by
  refine ⟨rfl, rfl, ?_, ?_, ?_⟩
  · rintro ⟨hlen, hrow⟩
    constructor
    · simp [extractQuadrant, Image.wf, hlen, Nat.min_eq_left (Nat.div_le_self _ _)]
    · intro r hr
      simp only [extractQuadrant, List.mem_map] at hr
      obtain ⟨r0, hr0, rfl⟩ := hr
      have hmem : r0 ∈ img.pixels := List.mem_of_mem_take hr0
      simp [extractQuadrant, hrow r0 hmem, Nat.min_eq_left (Nat.div_le_self _ _)]
  · intro x y hx hy
    have hstep : (extractQuadrant img).pixels.getD y []
        = (img.pixels.getD y []).take (img.width / 2) := by
      simp only [extractQuadrant]
      rw [getD_map_take, getD_take _ _ _ _ hy]
    rw [hstep, getD_take _ _ _ _ hx]
  · intro img2 h
    exact congrArg extractQuadrant h

/-- C1 witness: the theorem evaluated on a concrete 3×3 page. -/
theorem C1_quadrant_crop_witness :
    (extractQuadrant ⟨3, 3, [[1, 2, 3], [4, 5, 6], [7, 8, 9]]⟩).width = 3 / 2 ∧
    (extractQuadrant ⟨3, 3, [[1, 2, 3], [4, 5, 6], [7, 8, 9]]⟩).wf ∧
    ((extractQuadrant ⟨3, 3, [[1, 2, 3], [4, 5, 6], [7, 8, 9]]⟩).pixels.getD 0 []).getD 0 0
      = (([[1, 2, 3], [4, 5, 6], [7, 8, 9]] : List (List Nat)).getD 0 []).getD 0 0 :=
  ⟨(C1_quadrant_crop ⟨3, 3, [[1, 2, 3], [4, 5, 6], [7, 8, 9]]⟩).1,
   (C1_quadrant_crop ⟨3, 3, [[1, 2, 3], [4, 5, 6], [7, 8, 9]]⟩).2.2.1
     (by constructor <;> decide),
   (C1_quadrant_crop ⟨3, 3, [[1, 2, 3], [4, 5, 6], [7, 8, 9]]⟩).2.2.2.1 0 0
     (by decide) (by decide)⟩

/-- A file in `TEMP_DIR`: its basename and its modification time (seconds,
what `os.path.getmtime` returns). -/
structure TempFile where
  name : String
  mtime : Nat
deriving DecidableEq, Repr

/-- The shared mutable state of the bot: the global list
`all_processed_pages` (line 42, full paths of appended quadrant files) and
the files currently present in `TEMP_DIR`. -/
structure BotState where
  pages : List String
  tempFiles : List TempFile
deriving DecidableEq, Repr

/-- `TEMP_DIR = '/tmp/pdf_bot'` (line 38); the trailing slash stands for
`os.path.join`. -/
def TEMP_DIR : String := "/tmp/pdf_bot/"

/-- Basename of the artifact written for page `i` of the batch with
timestamp `ts`: `f'quadrant_{timestamp}_{i}.png'` (line 130). -/
def quadrantName (ts i : Nat) : String :=
  "quadrant_" ++ toString ts ++ "_" ++ toString i ++ ".png"

/-- Basename of the downloaded source file:
`f"temp_{int(time.time())}_{file_name}"` (line 212). -/
def pdfTempName (ts : Nat) (fname : String) : String :=
  "temp_" ++ toString ts ++ "_" ++ fname

/-- Basename of the composed output:
`f'combined_quadrants_{timestamp}.pdf'` (line 139). -/
def combinedName (ts : Nat) : String :=
  "combined_quadrants_" ++ toString ts ++ ".pdf"

/-- `os.remove(path)` for a basename: the file no longer exists in
`TEMP_DIR` afterwards. -/
def removeFile (files : List TempFile) (nm : String) : List TempFile :=
  files.filter (fun f => f.name ≠ nm)

/-- The write loop of `extract_top_left_quadrant` (lines 118-132): page `i`
is cropped and saved to `quadrant_{ts}_{i}.png`.  `saveOk i` is the oracle
for whether `quadrant.save` succeeds on page `i`; the first failing save
raises, aborting the loop.  Returns the basenames written so far and
whether the whole loop completed. -/
def extractLoop : List Image → (Nat → Bool) → Nat → Nat → List String × Bool
  | [], _, _, _ => ([], true)
  | _ :: rest, saveOk, ts, i =>
    if saveOk i then
      let r := extractLoop rest saveOk ts (i + 1)
      (quadrantName ts i :: r.1, r.2)
    else
      ([], false)

/-- `extract_top_left_quadrant` (lines 99-134) applied to the already
rendered pages: writes one quadrant file per page, starting at index 0. -/
def extract_top_left_quadrant (imgs : List Image) (saveOk : Nat → Bool) (ts : Nat) :
    List String × Bool :=
  extractLoop imgs saveOk ts 0

/-- Outcome of one `handle_pdf` call as reported to the user. -/
inductive IngestOutcome where
  | rejectedSize
  | renderFailed
  | extractFailed
  | ok (n : Nat)
deriving DecidableEq, Repr

/-- `handle_pdf` (lines 180-262).  `render` is the oracle for
`convert_from_path` (including all fallback poppler paths): `none` means
every attempt raised, `some imgs` the rendered pages.  Steps: reject if
`file_size > 20 * 1024 * 1024` (line 191, before any download); download
the source to `temp_{ts}_{fname}`; extract quadrants; on full success
extend `all_processed_pages` with the new full paths (line 233).  Any
exception is caught at line 248 leaving the list untouched, and the
`finally` block (lines 256-262) removes only the downloaded source file. -/
def handle_pdf (s : BotState) (fileSize : Nat) (fname : String)
    (render : Option (List Image)) (saveOk : Nat → Bool) (ts : Nat) :
    BotState × IngestOutcome :=
  if fileSize > 20 * 1024 * 1024 then
    (s, IngestOutcome.rejectedSize)
  else
    let pdfName := pdfTempName ts fname
    let afterDownload := s.tempFiles ++ [TempFile.mk pdfName ts]
    match render with
    | none =>
      ({ pages := s.pages, tempFiles := removeFile afterDownload pdfName },
       IngestOutcome.renderFailed)
    | some imgs =>
      let res := extract_top_left_quadrant imgs saveOk ts
      let afterExtract := afterDownload ++ res.1.map (fun nm => TempFile.mk nm ts)
      if res.2 then
        ({ pages := s.pages ++ res.1.map (fun nm => TEMP_DIR ++ nm),
           tempFiles := removeFile afterExtract pdfName },
         IngestOutcome.ok res.1.length)
      else
        ({ pages := s.pages, tempFiles := removeFile afterExtract pdfName },
         IngestOutcome.extractFailed)

/-- If the extraction loop completes, every page index it visited had a
successful save. -/
theorem extractLoop_success (imgs : List Image) (saveOk : Nat → Bool) (ts : Nat) :
    ∀ (i j : Nat), (extractLoop imgs saveOk ts i).2 = true → j < imgs.length →
      saveOk (i + j) = true := by
  induction imgs with
  | nil => intro i j _ hj; exact absurd hj (by simp)
  | cons a rest ih =>
    intro i j hok hj
    by_cases hs : saveOk i
    · cases j with
      | zero => simpa using hs
      | succ j =>
        have hok2 : (extractLoop rest saveOk ts (i + 1)).2 = true := by
          simpa [extractLoop, hs] using hok
        have := ih (i + 1) j hok2 (by simpa [Nat.succ_lt_succ_iff] using hj)
        simpa [Nat.add_assoc, Nat.add_comm 1 j] using this
    · simp [extractLoop, hs] at hok

/-- C2: if quadrant extraction fails on some page `k < N` of an `N`-page
ingestion, the store's page count after `handle_pdf` equals its count
before: no subset of that ingestion's pages is appended. -/
theorem C2_atomic_append (s : BotState) (fileSize : Nat) (fname : String)
    (imgs : List Image) (saveOk : Nat → Bool) (ts k : Nat)
    (hk : k < imgs.length) (hfail : saveOk k = false) :
    ((handle_pdf s fileSize fname (some imgs) saveOk ts).1).pages.length
      = s.pages.length := by
  have hnot : (extract_top_left_quadrant imgs saveOk ts).2 = false := by
    by_contra h
    have h2 : (extractLoop imgs saveOk ts 0).2 = true := by
      cases hv : (extractLoop imgs saveOk ts 0).2
      · exact absurd hv h
      · rfl
    have := extractLoop_success imgs saveOk ts 0 k h2 hk
    simp only [Nat.zero_add] at this
    rw [this] at hfail
    exact Bool.noConfusion hfail
  unfold handle_pdf
  by_cases hsz : fileSize > 20 * 1024 * 1024
  · simp [hsz]
  · simp [hsz, extract_top_left_quadrant] at hnot ⊢
    simp [hnot]

/-- C2 witness: a 1-page ingestion whose only save fails leaves the count
at 0. -/
theorem C2_atomic_append_witness :
    (0 : Nat) < [(⟨2, 2, [[0, 0], [0, 0]]⟩ : Image)].length ∧
    ((handle_pdf ⟨[], []⟩ 0 "a.pdf" (some [⟨2, 2, [[0, 0], [0, 0]]⟩])
        (fun _ => false) 1).1).pages.length = ([] : List String).length :=
  ⟨by decide,
   C2_atomic_append ⟨[], []⟩ 0 "a.pdf" [⟨2, 2, [[0, 0], [0, 0]]⟩]
     (fun _ => false) 1 0 (by decide) rfl⟩

/-- Quadrant artifact basenames start with `quadrant_`, the downloaded
source basename with `temp_`, so they never coincide. -/
theorem quadrantName_ne_pdfTempName (ts i ts2 : Nat) (fname : String) :
    quadrantName ts i ≠ pdfTempName ts2 fname := by
  intro h
  have hd := congrArg String.data h
  simp [quadrantName, pdfTempName, String.data_append] at hd

/-- Every basename written by the extraction loop is a `quadrantName`. -/
theorem extractLoop_names (imgs : List Image) (saveOk : Nat → Bool) (ts : Nat) :
    ∀ (i : Nat) (nm : String), nm ∈ (extractLoop imgs saveOk ts i).1 →
      ∃ j, nm = quadrantName ts j := by
  induction imgs with
  | nil => intro i nm hm; simp [extractLoop] at hm
  | cons a rest ih =>
    intro i nm hm
    by_cases hs : saveOk i
    · simp only [extractLoop, hs, if_true, List.mem_cons] at hm
      rcases hm with h | h
      · exact ⟨i, h⟩
      · exact ih (i + 1) nm h
    · simp [extractLoop, hs] at hm

/-- C3 counterexample: a 2-page ingestion whose save fails on page 1 ends
with outcome `extractFailed`, yet the quadrant file written for page 0 is
still present in the temp directory — the failure path leaks it. -/
theorem C3_counterexample :
    (handle_pdf ⟨[], []⟩ 0 "a.pdf"
        (some [⟨2, 2, [[0, 0], [0, 0]]⟩, ⟨2, 2, [[0, 0], [0, 0]]⟩])
        (fun i => i == 0) 1).2 = IngestOutcome.extractFailed ∧
    TempFile.mk "quadrant_1_0.png" 1 ∈
      ((handle_pdf ⟨[], []⟩ 0 "a.pdf"
          (some [⟨2, 2, [[0, 0], [0, 0]]⟩, ⟨2, 2, [[0, 0], [0, 0]]⟩])
          (fun i => i == 0) 1).1).tempFiles := by
  decide

/-- C3 amended: on every failure path the downloaded source file is removed
by the `finally` block, but quadrant files written before an extraction
failure are NOT removed by the failing call — they remain in the temp
directory (until the hourly sweep or a clear). -/
theorem C3_cleanup_amended (s : BotState) (fileSize : Nat) (fname : String)
    (render : Option (List Image)) (saveOk : Nat → Bool) (ts : Nat)
    (hsz : fileSize ≤ 20 * 1024 * 1024) :
    (∀ f ∈ ((handle_pdf s fileSize fname render saveOk ts).1).tempFiles,
      f.name ≠ pdfTempName ts fname) ∧
    (∀ imgs, render = some imgs →
      (extract_top_left_quadrant imgs saveOk ts).2 = false →
      ∀ nm ∈ (extract_top_left_quadrant imgs saveOk ts).1,
        TempFile.mk nm ts ∈
          ((handle_pdf s fileSize fname render saveOk ts).1).tempFiles) := by
  have hsz2 : ¬ fileSize > 20 * 1024 * 1024 := Nat.not_lt.mpr hsz
  constructor
  · intro f hf
    unfold handle_pdf at hf
    rw [if_neg hsz2] at hf
    rcases render with _ | imgs
    · simp only [removeFile, List.mem_filter] at hf
      exact of_decide_eq_true hf.2
    · by_cases hok : (extract_top_left_quadrant imgs saveOk ts).2
      · simp only [hok, if_true, removeFile, List.mem_filter] at hf
        exact of_decide_eq_true hf.2
      · simp only [Bool.not_eq_true] at hok
        simp only [hok, Bool.false_eq_true, if_false, removeFile,
          List.mem_filter] at hf
        exact of_decide_eq_true hf.2
  · rintro imgs rfl hfail nm hnm
    have hq : ∃ j, nm = quadrantName ts j :=
      extractLoop_names imgs saveOk ts 0 nm hnm
    obtain ⟨j, rfl⟩ := hq
    unfold handle_pdf
    rw [if_neg hsz2]
    simp only [hfail, Bool.false_eq_true, if_false, removeFile, List.mem_filter]
    constructor
    · simp only [List.mem_append, List.mem_map]
      right
      exact ⟨quadrantName ts j, hnm, rfl⟩
    · exact decide_eq_true (quadrantName_ne_pdfTempName ts j ts fname)

/-- C3 amended witness: the amended theorem evaluated on a concrete
failing ingestion, with both conjuncts instantiated. -/
theorem C3_cleanup_amended_witness :
    (∀ f ∈ ((handle_pdf ⟨[], []⟩ 0 "b.pdf"
        (some [⟨2, 2, [[0, 0], [0, 0]]⟩, ⟨2, 2, [[0, 0], [0, 0]]⟩])
        (fun i => i == 0) 2).1).tempFiles,
      f.name ≠ pdfTempName 2 "b.pdf") ∧
    TempFile.mk "quadrant_2_0.png" 2 ∈
      ((handle_pdf ⟨[], []⟩ 0 "b.pdf"
          (some [⟨2, 2, [[0, 0], [0, 0]]⟩, ⟨2, 2, [[0, 0], [0, 0]]⟩])
          (fun i => i == 0) 2).1).tempFiles :=
  ⟨(C3_cleanup_amended ⟨[], []⟩ 0 "b.pdf"
      (some [⟨2, 2, [[0, 0], [0, 0]]⟩, ⟨2, 2, [[0, 0], [0, 0]]⟩])
      (fun i => i == 0) 2 (by decide)).1,
   (C3_cleanup_amended ⟨[], []⟩ 0 "b.pdf"
      (some [⟨2, 2, [[0, 0], [0, 0]]⟩, ⟨2, 2, [[0, 0], [0, 0]]⟩])
      (fun i => i == 0) 2 (by decide)).2
     [⟨2, 2, [[0, 0], [0, 0]]⟩, ⟨2, 2, [[0, 0], [0, 0]]⟩] rfl (by decide)
     "quadrant_2_0.png" (by decide)⟩

/-- One page of the composed output: the artifact image drawn on it and
the fixed target size it is scaled to.  `create_pdf_from_images` resizes
every image to `(int(page_width), int(page_height))` of A4 in points
(line 153), i.e. `(595, 841)`; the floating-point LANCZOS resampling
itself is abstracted as the pair (source image, target size). -/
structure DrawnPage where
  source : Image
  width : Nat
  height : Nat
deriving DecidableEq, Repr

/-- `create_pdf_from_images` (lines 136-178).  `load p` is the oracle for
the per-page `Image.open`/`resize`/`save`/`drawImage` sequence on artifact
path `p`: `none` means that sequence raised, in which case the exception
handler at line 171 logs and `continue`s, skipping exactly that page.
After the loop the canvas is saved unconditionally (line 176) and the
output path is returned — there is no empty-input check anywhere.  Returns
the output basename and the drawn pages in input order. -/
def create_pdf_from_images (paths : List String) (load : String → Option Image)
    (ts : Nat) : String × List DrawnPage :=
  (combinedName ts,
   paths.filterMap (fun p => (load p).map (fun img => DrawnPage.mk img 595 841)))

/-- Outcome of one `send_combined_pdf` call. -/
inductive ExportOutcome where
  | emptyStore
  | oversize
  | sent (pages : List DrawnPage)
deriving DecidableEq, Repr

/-- `send_combined_pdf` (lines 264-325).  If `all_processed_pages` is empty
it replies and returns before any file is created (lines 269-271).
Otherwise it composes, measures the file size (`sizeOf0` is the oracle for
`os.path.getsize`, the byte size of the composed PDF), fails with the
oversize reply if it exceeds `50 * 1024 * 1024` (line 284), and in every
case the `finally` block (lines 319-325) removes the composed file.  The
global page list is never mutated. -/
def send_combined_pdf (s : BotState) (load : String → Option Image)
    (sizeOf0 : List DrawnPage → Nat) (ts : Nat) : BotState × ExportOutcome :=
  if s.pages.isEmpty then
    (s, ExportOutcome.emptyStore)
  else
    let res := create_pdf_from_images s.pages load ts
    let afterCompose := s.tempFiles ++ [TempFile.mk res.1 ts]
    if sizeOf0 res.2 > 50 * 1024 * 1024 then
      ({ pages := s.pages, tempFiles := removeFile afterCompose res.1 },
       ExportOutcome.oversize)
    else
      ({ pages := s.pages, tempFiles := removeFile afterCompose res.1 },
       ExportOutcome.sent res.2)

/-- C4: when the composed document exceeds the 50 MiB outbound limit, the
export fails with the oversize outcome, the composed file is removed from
the temp directory, and the store's page list is unchanged. -/
theorem C4_oversize (s : BotState) (load : String → Option Image)
    (sizeOf0 : List DrawnPage → Nat) (ts : Nat)
    (hne : s.pages ≠ [])
    (hbig : sizeOf0 (create_pdf_from_images s.pages load ts).2 > 50 * 1024 * 1024) :
    (send_combined_pdf s load sizeOf0 ts).2 = ExportOutcome.oversize ∧
    ((send_combined_pdf s load sizeOf0 ts).1).pages = s.pages ∧
    ∀ f ∈ ((send_combined_pdf s load sizeOf0 ts).1).tempFiles,
      f.name ≠ combinedName ts := by
  have hne2 : s.pages.isEmpty = false := by
    cases hp : s.pages
    · exact absurd hp hne
    · rfl
  unfold send_combined_pdf
  simp only [hne2, Bool.false_eq_true, if_false, hbig, if_true]
  refine ⟨trivial, trivial, ?_⟩
  intro f hf
  simp only [removeFile, List.mem_filter] at hf
  have := of_decide_eq_true hf.2
  simpa [create_pdf_from_images] using this

/-- C4 witness: a 1-page store whose composed output weighs 60 MiB. -/
theorem C4_oversize_witness :
    (send_combined_pdf ⟨["/tmp/pdf_bot/quadrant_1_0.png"], []⟩
        (fun _ => some ⟨2, 2, [[0, 0], [0, 0]]⟩)
        (fun _ => 60 * 1024 * 1024) 5).2 = ExportOutcome.oversize ∧
    ((send_combined_pdf ⟨["/tmp/pdf_bot/quadrant_1_0.png"], []⟩
        (fun _ => some ⟨2, 2, [[0, 0], [0, 0]]⟩)
        (fun _ => 60 * 1024 * 1024) 5).1).pages = ["/tmp/pdf_bot/quadrant_1_0.png"] :=
  ⟨(C4_oversize ⟨["/tmp/pdf_bot/quadrant_1_0.png"], []⟩
      (fun _ => some ⟨2, 2, [[0, 0], [0, 0]]⟩)
      (fun _ => 60 * 1024 * 1024) 5 (by decide) (by decide)).1,
   (C4_oversize ⟨["/tmp/pdf_bot/quadrant_1_0.png"], []⟩
      (fun _ => some ⟨2, 2, [[0, 0], [0, 0]]⟩)
      (fun _ => 60 * 1024 * 1024) 5 (by decide) (by decide)).2.1⟩

/-- C6: exporting from an empty store returns the empty-store outcome with
the state completely unchanged — in particular no composed file is ever
created. -/
theorem C6_empty_export (s : BotState) (load : String → Option Image)
    (sizeOf0 : List DrawnPage → Nat) (ts : Nat) (hemp : s.pages = []) :
    send_combined_pdf s load sizeOf0 ts = (s, ExportOutcome.emptyStore) := by
  unfold send_combined_pdf
  simp [hemp]

/-- C6 witness: the empty initial state. -/
theorem C6_empty_export_witness :
    send_combined_pdf ⟨[], [⟨"x.txt", 0⟩]⟩ (fun _ => none) (fun _ => 0) 7
      = (⟨[], [⟨"x.txt", 0⟩]⟩, ExportOutcome.emptyStore) :=
  C6_empty_export ⟨[], [⟨"x.txt", 0⟩]⟩ (fun _ => none) (fun _ => 0) 7 rfl

/-- An export never changes the page list. -/
theorem send_combined_pdf_pages (s : BotState) (load : String → Option Image)
    (sizeOf0 : List DrawnPage → Nat) (ts : Nat) :
    ((send_combined_pdf s load sizeOf0 ts).1).pages = s.pages := by
  unfold send_combined_pdf
  by_cases h : s.pages.isEmpty
  · simp [h]
  · simp only [Bool.not_eq_true] at h
    simp only [h, Bool.false_eq_true, if_false]
    by_cases h2 : sizeOf0 (create_pdf_from_images s.pages load ts).2 > 50 * 1024 * 1024
    · simp [h2]
    · simp [h2]

/-- The outcome of an export depends only on the page list (not on the
temp files or the timestamp). -/
theorem send_combined_pdf_snd (s : BotState) (load : String → Option Image)
    (sizeOf0 : List DrawnPage → Nat) (ts : Nat) :
    (send_combined_pdf s load sizeOf0 ts).2 =
      (if s.pages.isEmpty then ExportOutcome.emptyStore
       else if sizeOf0 (create_pdf_from_images s.pages load ts).2 > 50 * 1024 * 1024
       then ExportOutcome.oversize
       else ExportOutcome.sent (create_pdf_from_images s.pages load ts).2) := by
  unfold send_combined_pdf
  by_cases h : s.pages.isEmpty
  · simp [h]
  · simp only [Bool.not_eq_true] at h
    simp only [h, Bool.false_eq_true, if_false]
    by_cases h2 : sizeOf0 (create_pdf_from_images s.pages load ts).2 > 50 * 1024 * 1024
    · simp [h2]
    · simp [h2]

/-- C7: two successive exports with no intervening ingest or clear return
the same outcome — in particular the same composed page list (same
artifacts, scaled to the same size, in the same order). -/
theorem C7_export_idempotent (s : BotState) (load : String → Option Image)
    (sizeOf0 : List DrawnPage → Nat) (ts1 ts2 : Nat) :
    (send_combined_pdf ((send_combined_pdf s load sizeOf0 ts1).1) load sizeOf0 ts2).2
      = (send_combined_pdf s load sizeOf0 ts1).2 := by
  rw [send_combined_pdf_snd, send_combined_pdf_snd,
    send_combined_pdf_pages s load sizeOf0 ts1]
  simp [create_pdf_from_images]

/-- C5 counterexample: a store with one artifact whose load fails composes
to an output document with zero drawn pages and the export reports it as
sent — the code never raises an empty-input error after skipping all
entries (the canvas is saved and returned unconditionally at line 176). -/
theorem C5_counterexample :
    (create_pdf_from_images ["/tmp/pdf_bot/quadrant_1_0.png"] (fun _ => none) 3)
      = (combinedName 3, []) ∧
    (send_combined_pdf ⟨["/tmp/pdf_bot/quadrant_1_0.png"], []⟩
        (fun _ => none) (fun _ => 0) 3).2 = ExportOutcome.sent [] ∧
    ExportOutcome.sent [] ≠ ExportOutcome.emptyStore := by
  decide

/-- C5 amended: a single artifact's load/draw failure skips exactly that
page and composition continues with the remaining artifacts; when every
artifact fails, the composer still returns an output document with zero
drawn pages (no empty-input error is raised). -/
theorem C5_skip_amended (pre post : List String) (bad : String)
    (load : String → Option Image) (ts1 ts2 ts3 : Nat) :
    (load bad = none →
      (create_pdf_from_images (pre ++ bad :: post) load ts1).2
        = (create_pdf_from_images pre load ts2).2
            ++ (create_pdf_from_images post load ts3).2) ∧
    ((∀ p ∈ pre ++ bad :: post, load p = none) →
      (create_pdf_from_images (pre ++ bad :: post) load ts1).2 = [] ∧
      (create_pdf_from_images (pre ++ bad :: post) load ts1).1 = combinedName ts1) := by
  constructor
  · intro h
    simp [create_pdf_from_images, List.filterMap_append, List.filterMap_cons, h]
  · intro h
    refine ⟨?_, rfl⟩
    simp only [create_pdf_from_images, List.filterMap_eq_nil_iff]
    intro p hp
    simp [h p hp]

/-- C5 amended witness: pre = ["b"] (loads), bad = "a" (fails), post = [];
and the all-fail case on the same list with a load that always fails. -/
theorem C5_skip_amended_witness :
    ((create_pdf_from_images (["b"] ++ "a" :: [])
        (fun p => if p = "b" then some ⟨1, 1, [[0]]⟩ else none) 0).2
      = (create_pdf_from_images ["b"]
          (fun p => if p = "b" then some ⟨1, 1, [[0]]⟩ else none) 1).2
        ++ (create_pdf_from_images []
            (fun p => if p = "b" then some ⟨1, 1, [[0]]⟩ else none) 2).2) ∧
    (create_pdf_from_images (["b"] ++ "a" :: []) (fun _ => none) 0).2 = [] :=
  ⟨(C5_skip_amended ["b"] [] "a"
      (fun p => if p = "b" then some ⟨1, 1, [[0]]⟩ else none) 0 1 2).1 (by decide),
   ((C5_skip_amended ["b"] [] "a" (fun _ => none) 0 1 2).2
      (fun p _ => rfl)).1⟩

/-- Python `s.startswith(p)`, on the character lists of the strings. -/
def strStartsWith (s p : String) : Bool := p.data.isPrefixOf s.data

/-- Python `s.endswith(p)`, on the character lists of the strings. -/
def strEndsWith (s p : String) : Bool := p.data.isSuffixOf s.data

/-- The deletion condition of the cleanup part of `keep_alive_worker`
(lines 62-69): the basename starts with `quadrant_` or `temp_` and the
file age `current_timestamp - mtime` exceeds 3600 seconds.  The store's
sequence is not consulted. -/
def sweepMatches (now : Nat) (f : TempFile) : Bool :=
  (strStartsWith f.name "quadrant_" || strStartsWith f.name "temp_")
    && decide (now - f.mtime > 3600)

/-- One pass of the hourly cleanup inside `keep_alive_worker` (lines
59-72): every matching file is removed; `all_processed_pages` is never
touched. -/
def keep_alive_cleanup (now : Nat) (s : BotState) : BotState :=
  { pages := s.pages,
    tempFiles := s.tempFiles.filter (fun f => ! sweepMatches now f) }

/-- C8 counterexample: a quadrant file appended to the store 3900 seconds
ago is deleted by the sweep even though its path is in the store's current
sequence — the sweep checks only name prefix and age, never membership. -/
theorem C8_counterexample :
    (TEMP_DIR ++ "quadrant_1_0.png") ∈
      (⟨[TEMP_DIR ++ "quadrant_1_0.png"], [⟨"quadrant_1_0.png", 100⟩]⟩
        : BotState).pages ∧
    (keep_alive_cleanup 4000
        ⟨[TEMP_DIR ++ "quadrant_1_0.png"], [⟨"quadrant_1_0.png", 100⟩]⟩).tempFiles
      = [] := by
  decide

/-- C8 amended: the sweep deletes exactly the files whose basename starts
with `quadrant_` or `temp_` and whose age exceeds 3600 seconds — with no
regard to whether the path still appears in the store's sequence. -/
theorem C8_sweep_amended (now : Nat) (s : BotState) (f : TempFile)
    (hf : f ∈ s.tempFiles) :
    f ∈ (keep_alive_cleanup now s).tempFiles ↔
      ¬ ((strStartsWith f.name "quadrant_" = true
            ∨ strStartsWith f.name "temp_" = true)
          ∧ now - f.mtime > 3600) := by
  simp only [keep_alive_cleanup, List.mem_filter, hf, true_and, sweepMatches,
    Bool.not_eq_true']
  cases hb1 : strStartsWith f.name "quadrant_" <;>
    cases hb2 : strStartsWith f.name "temp_" <;>
      simp [Nat.not_lt, Nat.lt_iff_add_one_le]

/-- C8 amended witness: a file whose name matches neither pattern survives
the sweep. -/
theorem C8_sweep_amended_witness :
    (⟨"other.txt", 0⟩ : TempFile) ∈
      (keep_alive_cleanup 4000 ⟨[], [⟨"other.txt", 0⟩]⟩).tempFiles :=
  (C8_sweep_amended 4000 ⟨[], [⟨"other.txt", 0⟩]⟩ ⟨"other.txt", 0⟩
      (by decide)).mpr (by decide)

/-- `clear_pages` (lines 327-346): the reported count is the length of
`all_processed_pages` at call time (line 332); the list is cleared; then
every file in `TEMP_DIR` whose basename starts with `quadrant_` and ends
with `.png` is removed (lines 337-341) — selection is by filename pattern
only. -/
def clear_pages (s : BotState) : BotState × Nat :=
  ({ pages := [],
     tempFiles := s.tempFiles.filter (fun f =>
       ! (strStartsWith f.name "quadrant_" && strEndsWith f.name ".png")) },
   s.pages.length)

/-- C10: the clear operation reports the store's length at call time,
empties the sequence, and its deletion step removes exactly the files
matching the `quadrant_*.png` name pattern — membership in the store's
sequence plays no role, so a matching file of an in-flight ingestion that
has not yet appended is deleted as well. -/
theorem C10_clear_pattern (s : BotState) :
    (clear_pages s).2 = s.pages.length ∧
    ((clear_pages s).1).pages = [] ∧
    (∀ f ∈ s.tempFiles,
      (f ∈ ((clear_pages s).1).tempFiles ↔
        ¬ (strStartsWith f.name "quadrant_" = true
            ∧ strEndsWith f.name ".png" = true))) ∧
    (∀ f ∈ s.tempFiles,
      strStartsWith f.name "quadrant_" = true →
      strEndsWith f.name ".png" = true →
      (TEMP_DIR ++ f.name) ∉ s.pages →
      f ∉ ((clear_pages s).1).tempFiles) := by
  refine ⟨rfl, rfl, ?_, ?_⟩
  · intro f hf
    simp only [clear_pages, List.mem_filter, hf, true_and, Bool.not_eq_true']
    cases hb1 : strStartsWith f.name "quadrant_" <;>
      cases hb2 : strEndsWith f.name ".png" <;> simp
  · intro f hf h1 h2 _
    simp [clear_pages, List.mem_filter, hf, Bool.and_eq_true, h1, h2]

/-- C10 witness: a store holding one page path, with a matching in-flight
quadrant file in the temp dir whose path is not in the store; the clear
reports 1 and deletes that file. -/
theorem C10_clear_pattern_witness :
    (clear_pages ⟨["p"], [⟨"quadrant_9_0.png", 5⟩]⟩).2 = 1 ∧
    (⟨"quadrant_9_0.png", 5⟩ : TempFile) ∉
      ((clear_pages ⟨["p"], [⟨"quadrant_9_0.png", 5⟩]⟩).1).tempFiles :=
  ⟨(C10_clear_pattern ⟨["p"], [⟨"quadrant_9_0.png", 5⟩]⟩).1,
   (C10_clear_pattern ⟨["p"], [⟨"quadrant_9_0.png", 5⟩]⟩).2.2.2
     ⟨"quadrant_9_0.png", 5⟩ (by decide) (by decide) (by decide) (by decide)⟩

/-- One inbound event, dispatching to the handler the transport would
invoke: a PDF message, the `/send`, `/clear`, `/status` or `/health`
command, or one pass of the background cleanup. -/
inductive Op where
  | opIngest (fileSize : Nat) (fname : String) (render : Option (List Image))
      (saveOk : Nat → Bool) (ts : Nat)
  | opExportCmd (load : String → Option Image) (sizeOf0 : List DrawnPage → Nat)
      (ts : Nat)
  | opClear
  | opStatus
  | opHealth
  | opSweep (now : Nat)

/-- Effect of one event on the shared state.  `status` (lines 348-366) and
`health_check` (lines 368-404) only read `all_processed_pages`. -/
def step (s : BotState) : Op → BotState
  | Op.opIngest fs fn r sv ts => (handle_pdf s fs fn r sv ts).1
  | Op.opExportCmd l sz ts => (send_combined_pdf s l sz ts).1
  | Op.opClear => (clear_pages s).1
  | Op.opStatus => s
  | Op.opHealth => s
  | Op.opSweep now => keep_alive_cleanup now s

/-- C9: after any single operation on any state the page count is still
≥ 0, and the count changes only through a successful ingestion's append
(adding exactly that ingestion's page count) or through clear (resetting
to 0); export, status, health check and the background sweep leave it
unchanged. -/
theorem C9_count_invariant (s : BotState) (op : Op) :
    0 ≤ (step s op).pages.length ∧
    (match op with
     | Op.opIngest fs fn r sv ts =>
         (step s op).pages.length = s.pages.length ∨
         ∃ n, (handle_pdf s fs fn r sv ts).2 = IngestOutcome.ok n ∧
           (step s op).pages.length = s.pages.length + n
     | Op.opClear => (step s op).pages.length = 0
     | _ => (step s op).pages.length = s.pages.length) := by
  refine ⟨Nat.zero_le _, ?_⟩
  cases op with
  | opIngest fs fn r sv ts =>
    simp only [step]
    unfold handle_pdf
    by_cases hsz : fs > 20 * 1024 * 1024
    · simp [hsz]
    · rcases r with _ | imgs
      · simp [hsz]
      · by_cases hok : (extract_top_left_quadrant imgs sv ts).2
        · right
          refine ⟨(extract_top_left_quadrant imgs sv ts).1.length, ?_, ?_⟩
          · simp [hsz, hok]
          · simp [hsz, hok]
        · left
          simp only [Bool.not_eq_true] at hok
          simp [hsz, hok]
  | opExportCmd l sz ts =>
    simpa [step] using congrArg List.length (send_combined_pdf_pages s l sz ts)
  | opClear => rfl
  | opStatus => rfl
  | opHealth => rfl
  | opSweep now => rfl

end PdfBot
